import Mathlib

/-!
Shallow embedding of the byzcoin contract task engine
(src/ledger/byzcoin/contract/task.go) of the dela ledger.

Go strings and byte slices are byte sequences; both are modelled as
`List Nat`.  Collaborator types that live outside src/ (the Instance
record, the execution contexts, the inventory page, the arc package)
are modelled from the spec, as marked on each definition.  Error values
are Go error messages; format verbs that would render collaborator
values are abstracted into fixed message prefixes.
-/

namespace Dela

/-- A Go string or byte slice is an immutable byte sequence. -/
abbrev GoString := List Nat

variable {V A I W : Type}

/-- SpawnTask is a client task of a transaction to create a new instance
(task.go lines 19-24).  The argument is an opaque proto message of type A. -/
structure SpawnTask (A : Type) where
  ContractID : GoString
  Argument   : A
deriving DecidableEq

/-- InvokeTask is a client task of a transaction to update an existing
instance (task.go lines 46-51). -/
structure InvokeTask (A : Type) where
  Key      : GoString
  Argument : A
deriving DecidableEq

/-- DeleteTask is a client task of a transaction to mark an instance as
deleted (task.go lines 73-77). -/
structure DeleteTask where
  Key : GoString
deriving DecidableEq

/-- The closed union of the three client task variants (basic.ClientTask
implementations reaching the dispatcher switch of task.go line 110). -/
inductive ClientTask (A : Type) where
  | spawn  (t : SpawnTask A)
  | invoke (t : InvokeTask A)
  | delete (t : DeleteTask)
deriving DecidableEq

/-- Fingerprint of a spawn task (task.go lines 28-40): write the raw bytes
of ContractID, then MarshalStable the argument.  The writer is a state of
type W with write function wr; the stable marshaller is e. -/
def SpawnTask.Fingerprint (act : SpawnTask A)
    (wr : W → GoString → Except String W) (e : W → A → Except String W)
    (w : W) : Except String W :=
  match wr w act.ContractID with
  | .error err => .error ("cannot write contract: " ++ err)
  | .ok w1 =>
    match e w1 act.Argument with
    | .error err => .error ("cannot write argument: " ++ err)
    | .ok w2 => .ok w2

/-- Fingerprint of an invoke task (task.go lines 55-67): write the raw
bytes of Key, then MarshalStable the argument. -/
def InvokeTask.Fingerprint (act : InvokeTask A)
    (wr : W → GoString → Except String W) (e : W → A → Except String W)
    (w : W) : Except String W :=
  match wr w act.Key with
  | .error err => .error ("cannot write key: " ++ err)
  | .ok w1 =>
    match e w1 act.Argument with
    | .error err => .error ("cannot write argument: " ++ err)
    | .ok w2 => .ok w2

/-- Fingerprint of a delete task (task.go lines 81-88): write the raw
bytes of Key only. -/
def DeleteTask.Fingerprint (act : DeleteTask)
    (wr : W → GoString → Except String W) (_e : W → A → Except String W)
    (w : W) : Except String W :=
  match wr w act.Key with
  | .error err => .error ("cannot write key: " ++ err)
  | .ok w1 => .ok w1

/-- Interface dispatch of encoding.Fingerprinter over the task union. -/
def ClientTask.Fingerprint (t : ClientTask A)
    (wr : W → GoString → Except String W) (e : W → A → Except String W)
    (w : W) : Except String W :=
  match t with
  | .spawn act => act.Fingerprint wr e w
  | .invoke act => act.Fingerprint wr e w
  | .delete act => act.Fingerprint wr e w

/-- The plain in-memory byte-buffer writer: appending to the buffer never
fails.  Used to observe the byte sequence a fingerprint produces. -/
def bufWrite (w bs : GoString) : Except String GoString := .ok (w ++ bs)

/-- A stable marshaller built from a deterministic serialization function:
it appends the serialized bytes of the argument to the buffer. -/
def stableEnc (stable : A → GoString) (w : GoString) (a : A) :
    Except String GoString := .ok (w ++ stable a)

/-- Modelled from the spec: a rule is a deterministic string built from
(contract_id, action) by arc.Compile of package ledger/arc (not under
src/); modelled as the pair itself, which is deterministic in both parts. -/
structure Rule where
  contractID : GoString
  action     : String
deriving DecidableEq

/-- Modelled from the spec: arc.Compile (package ledger/arc, not under
src/) builds the rule from the contract identifier and the action name. -/
def arc.Compile (name : GoString) (action : String) : Rule := ⟨name, action⟩

/-- Modelled from the spec: the access-control policy collaborator.
Match rule identity returns none when the identity is authorized for the
rule and some message when it is refused. -/
structure AccessControl (I : Type) where
  Match : Rule → I → Option String

/-- Modelled from the spec: the two failure kinds of a page read, a
missing instance (NotFound) or a failing storage collaborator
(StorageFailed). -/
inductive ReadErr where
  | notFound
  | storageFailure
deriving DecidableEq

/-- Rendering of a read error as a Go error message. -/
def ReadErr.msg : ReadErr → String
  | .notFound => "not found"
  | .storageFailure => "storage failure"

/-- Instance is the persisted unit of ledger state.  Modelled from the
spec (the Instance record of the contract package is not under src/):
key, access-control identifier, contract identifier, deleted flag and an
opaque value of type V, in the field order of the composite literal at
task.go lines 166-172. -/
structure Instance (V : Type) where
  Key           : GoString
  AccessControl : GoString
  ContractID    : GoString
  Deleted       : Bool
  Value         : V
deriving DecidableEq

/-- Modelled from the spec: the storage page collaborator
(inventory.WritablePage, not under src/), a key-value view of ledger
state.  store gives the current instance at each key; readFail and
writeFail inject storage failures at a key. -/
structure Page (V : Type) where
  store     : GoString → Option (Instance V)
  readFail  : GoString → Bool
  writeFail : GoString → Bool

/-- Modelled from the spec: read(key) yields the instance, NotFound when
the key holds none, or StorageFailed when the storage collaborator fails. -/
def Page.Read (p : Page V) (key : GoString) : Except ReadErr (Instance V) :=
  if p.readFail key then .error .storageFailure
  else
    match p.store key with
    | some i => .ok i
    | none => .error .notFound

/-- The pure single-key update of the page store. -/
def Page.put (p : Page V) (key : GoString) (i : Instance V) : Page V :=
  { p with store := fun k => if k = key then some i else p.store k }

/-- Modelled from the spec: write(key, Instance) either fails against the
storage collaborator, leaving the page unchanged, or updates the store at
exactly that key. -/
def Page.Write (p : Page V) (key : GoString) (i : Instance V) :
    Except String (Page V) :=
  if p.writeFail key then .error "storage write failure"
  else .ok (p.put key i)

/-- Modelled from the spec: the transaction execution context
(basic.Context together with the access-control resolver collaborator,
neither under src/): the submitter identity, the derived target key
returned by GetID, and resolve(access_control_id). -/
structure TxContext (I : Type) where
  identity : I
  txID     : GoString
  getArc   : GoString → Except String (AccessControl I)

/-- taskContext (task.go lines 103-106): the transaction context paired
with the storage page. -/
structure Context (V I : Type) where
  base : TxContext I
  page : Page V

/-- Read through the page, as the taskContext helper does (modelled from
the spec storage contract). -/
def Context.Read (ctx : Context V I) (key : GoString) :
    Except ReadErr (Instance V) :=
  ctx.page.Read key

/-- GetID returns the key derived from the enclosing transaction. -/
def Context.GetID (ctx : Context V I) : GoString := ctx.base.txID

/-- GetIdentity returns the submitter identity. -/
def Context.GetIdentity (ctx : Context V I) : I := ctx.base.identity

/-- GetArc resolves an access-control identifier to a policy object. -/
def Context.GetArc (ctx : Context V I) (key : GoString) :
    Except String (AccessControl I) :=
  ctx.base.getArc key

/-- SpawnContext: the task context together with the spawn task fields. -/
structure SpawnContext (V A I : Type) where
  ctx  : Context V I
  task : SpawnTask A

/-- InvokeContext: the task context together with the invoke task fields. -/
structure InvokeContext (V A I : Type) where
  ctx  : Context V I
  task : InvokeTask A

/-- DeleteContext: the task context together with the delete task fields. -/
structure DeleteContext (V A I : Type) where
  ctx  : Context V I
  task : DeleteTask

/-- Modelled from the spec: the pluggable contract capability, one per
contract identifier: spawn(context) yields a value and the access-control
identifier for the new instance, invoke(context) yields the new value;
either may fail. -/
structure Contract (V A I : Type) where
  Spawn  : SpawnContext V A I → Except String (V × GoString)
  Invoke : InvokeContext V A I → Except String V

/-- serverTask (task.go lines 94-98): the client task together with the
contract registry map.  The encoder field is never used on the Consume
path and is omitted. -/
structure serverTask (V A I : Type) where
  task      : ClientTask A
  contracts : GoString → Option (Contract V A I)

/-- hasAccess (task.go lines 216-229): resolve the access control by its
identifier through the context, then match the rule against the submitter
identity; none means access granted. -/
def serverTask.hasAccess (_act : serverTask V A I) (ctx : Context V I)
    (key : GoString) (rule : Rule) : Option String :=
  match ctx.GetArc key with
  | .error e => some ("cannot read access: " ++ e)
  | .ok access =>
    match access.Match rule ctx.GetIdentity with
    | some e => some ("refused: " ++ e)
    | none => none

/-- consumeSpawn (task.go lines 143-175).  Note the first step: the spawn
fails with "instance already exists" exactly when the read returns nil
error; any read error, of either kind, lets the spawn proceed. -/
def serverTask.consumeSpawn (act : serverTask V A I)
    (ctx : SpawnContext V A I) : Except String (Instance V) :=
  match ctx.ctx.Read ctx.ctx.GetID with
  | .ok _ => .error "instance already exists"
  | .error _ =>
    match act.contracts ctx.task.ContractID with
    | none => .error "contract not found"
    | some exec =>
      match exec.Spawn ctx with
      | .error e => .error ("cannot execute spawn: " ++ e)
      | .ok (value, arcid) =>
        let rule := arc.Compile ctx.task.ContractID "spawn"
        match act.hasAccess ctx.ctx arcid rule with
        | some e => .error ("no access: " ++ e)
        | none => .ok ⟨ctx.ctx.GetID, arcid, ctx.task.ContractID, false, value⟩

/-- consumeInvoke (task.go lines 177-203): read the existing instance,
check access against its access-control identifier under the rule built
from its contract identifier, then resolve and run the contract and
replace the value. -/
def serverTask.consumeInvoke (act : serverTask V A I)
    (ctx : InvokeContext V A I) : Except String (Instance V) :=
  match ctx.ctx.Read ctx.task.Key with
  | .error e => .error ("cannot read the instance: " ++ e.msg)
  | .ok inst =>
    let rule := arc.Compile inst.ContractID "invoke"
    match act.hasAccess ctx.ctx inst.AccessControl rule with
    | some e => .error ("no access: " ++ e)
    | none =>
      match act.contracts inst.ContractID with
      | none => .error "contract not found"
      | some exec =>
        match exec.Invoke ctx with
        | .error e => .error ("cannot invoke: " ++ e)
        | .ok value => .ok { inst with Value := value }

/-- consumeDelete (task.go lines 205-214): read the existing instance and
mark it deleted. -/
def serverTask.consumeDelete (_act : serverTask V A I)
    (ctx : DeleteContext V A I) : Except String (Instance V) :=
  match ctx.ctx.Read ctx.task.Key with
  | .error e => .error ("cannot read the instance: " ++ e.msg)
  | .ok inst => .ok { inst with Deleted := true }

/-- The switch over the task variants inside Consume (task.go lines
108-128); the union is closed, so the default branch is unreachable. -/
def serverTask.dispatch (act : serverTask V A I) (txCtx : Context V I) :
    Except String (Instance V) :=
  match act.task with
  | .spawn t => act.consumeSpawn ⟨txCtx, t⟩
  | .invoke t => act.consumeInvoke ⟨txCtx, t⟩
  | .delete t => act.consumeDelete ⟨txCtx, t⟩

/-- Consume (task.go lines 102-141): build the task context, run the
transition for the task variant, and on success write the resulting
instance to the page under its key.  The result is the returned error, if
any, together with the observable page state afterwards. -/
def serverTask.Consume (act : serverTask V A I) (ctx : TxContext I)
    (page : Page V) : Option String × Page V :=
  let txCtx : Context V I := ⟨ctx, page⟩
  match act.dispatch txCtx with
  | .error e => (some e, page)
  | .ok inst =>
    match page.Write inst.Key inst with
    | .error e => (some ("cannot write instance to page: " ++ e), page)
    | .ok page2 => (none, page2)

/-- The byte sequence a task fingerprints to under the buffer writer and
the stable serialization function f, as a pure function of the task value. -/
def fpBytes (f : A → GoString) : ClientTask A → GoString
  | .spawn t => t.ContractID ++ f t.Argument
  | .invoke t => t.Key ++ f t.Argument
  | .delete t => t.Key

/-- A concrete always-allowing access-control policy. -/
def allowArc : AccessControl Nat := ⟨fun _ _ => none⟩

/-- A concrete always-refusing access-control policy. -/
def denyArc : AccessControl Nat := ⟨fun _ _ => some "denied"⟩

/-- A concrete contract: spawn returns value 100 under access-control
identifier [7], invoke returns value 70. -/
def coinContract : Contract Nat Nat Nat :=
  { Spawn := fun _ => .ok (100, [7]), Invoke := fun _ => .ok 70 }

/-- A concrete registry holding coinContract under identifier [3]. -/
def coinRegistry : GoString → Option (Contract Nat Nat Nat) :=
  fun cid => if cid = [3] then some coinContract else none

/-- A concrete transaction context whose arc resolver always allows. -/
def allowCtx : TxContext Nat := ⟨1, [5], fun _ => .ok allowArc⟩

/-- A concrete transaction context whose arc resolver always refuses. -/
def denyCtx : TxContext Nat := ⟨1, [5], fun _ => .ok denyArc⟩

/-- A concrete page holding no instance, with reliable storage. -/
def emptyPage : Page Nat := ⟨fun _ => none, fun _ => false, fun _ => false⟩

/-- A concrete page holding no instance whose reads always fail against
the storage collaborator. -/
def badReadPage : Page Nat := ⟨fun _ => none, fun _ => true, fun _ => false⟩

/-- A concrete server task holding a spawn task for coinContract. -/
def spawnAct : serverTask Nat Nat Nat := ⟨.spawn ⟨[3], 0⟩, coinRegistry⟩

/-- C7: Fingerprint writes exactly contract_id bytes then the stable
serialization of the argument (Spawn), key bytes then the stable
serialization of the argument (Invoke), or key bytes only (Delete), and a
failure of the writer or of the stable marshaller is returned as an error
from Fingerprint. -/
theorem Fingerprint_byte_sequence (f : A → GoString) (w : GoString)
    (s : SpawnTask A) (i : InvokeTask A) (d : DeleteTask)
    (wr : W → GoString → Except String W) (e : W → A → Except String W)
    (w0 : W) :
    s.Fingerprint bufWrite (stableEnc f) w = .ok ((w ++ s.ContractID) ++ f s.Argument) ∧
    i.Fingerprint bufWrite (stableEnc f) w = .ok ((w ++ i.Key) ++ f i.Argument) ∧
    d.Fingerprint bufWrite (stableEnc f) w = .ok (w ++ d.Key) ∧
    (∀ err, wr w0 s.ContractID = .error err →
      s.Fingerprint wr e w0 = .error ("cannot write contract: " ++ err)) ∧
    (∀ w1 err, wr w0 s.ContractID = .ok w1 → e w1 s.Argument = .error err →
      s.Fingerprint wr e w0 = .error ("cannot write argument: " ++ err)) ∧
    (∀ err, wr w0 i.Key = .error err →
      i.Fingerprint wr e w0 = .error ("cannot write key: " ++ err)) ∧
    (∀ w1 err, wr w0 i.Key = .ok w1 → e w1 i.Argument = .error err →
      i.Fingerprint wr e w0 = .error ("cannot write argument: " ++ err)) ∧
    (∀ err, wr w0 d.Key = .error err →
      d.Fingerprint wr e w0 = .error ("cannot write key: " ++ err)) := by
  refine ⟨rfl, rfl, rfl, ?_, ?_, ?_, ?_, ?_⟩
  · intro err h
    simp [SpawnTask.Fingerprint, h]
  · intro w1 err h1 h2
    simp [SpawnTask.Fingerprint, h1, h2]
  · intro err h
    simp [InvokeTask.Fingerprint, h]
  · intro w1 err h1 h2
    simp [InvokeTask.Fingerprint, h1, h2]
  · intro err h
    simp [DeleteTask.Fingerprint, h]

/-- Witness for C7 at concrete input: contract id [1], argument 4 with
serialization [4], key [2], buffer writer and a failing writer. -/
theorem Fingerprint_byte_sequence_witness :
    SpawnTask.Fingerprint ⟨[1], 4⟩ bufWrite (stableEnc fun a => [a]) [] =
      .ok [1, 4] ∧
    SpawnTask.Fingerprint ⟨[1], (4 : Nat)⟩
      ((fun _ _ => .error "boom") : GoString → GoString → Except String GoString)
      (stableEnc fun a => [a]) [] =
      .error ("cannot write contract: " ++ "boom") := by
  have h := Fingerprint_byte_sequence (fun a : Nat => [a]) []
    ⟨[1], 4⟩ ⟨[2], 4⟩ ⟨[2]⟩
    ((fun _ _ => .error "boom") : GoString → GoString → Except String GoString)
    (stableEnc fun a => [a]) []
  exact ⟨h.1, h.2.2.2.1 "boom" rfl⟩

/-- C8 counterexample: a deterministic but non-injective stable
serializer makes two invoke tasks that differ only in the argument, with
equal keys, fingerprint to identical bytes, so same-variant tasks
differing in a covered field do not always produce different
fingerprints. -/
theorem Fingerprint_argument_collision :
    (0 : Nat) ≠ 1 ∧
    ClientTask.Fingerprint (.invoke ⟨[2], (0 : Nat)⟩) bufWrite
      (stableEnc fun _ => []) [] =
    ClientTask.Fingerprint (.invoke ⟨[2], (1 : Nat)⟩) bufWrite
      (stableEnc fun _ => []) [] :=
  ⟨by decide, rfl⟩

/-- C8 amended: the fingerprint output under the buffer writer is a
function of the task value alone, so repeated calls are byte-identical;
two tasks of the same variant that differ only in the key (Invoke,
Delete) or the contract id (Spawn) always produce different fingerprints;
two tasks that differ only in the argument produce different fingerprints
exactly when the stable serializations of their arguments differ. -/
theorem Fingerprint_determinism_and_distinctness (f : A → GoString) :
    (∀ (t : ClientTask A) (w : GoString),
      t.Fingerprint bufWrite (stableEnc f) w = .ok (w ++ fpBytes f t)) ∧
    (∀ (k1 k2 : GoString) (a : A) (w : GoString), k1 ≠ k2 →
      InvokeTask.Fingerprint ⟨k1, a⟩ bufWrite (stableEnc f) w ≠
      InvokeTask.Fingerprint ⟨k2, a⟩ bufWrite (stableEnc f) w) ∧
    (∀ (c1 c2 : GoString) (a : A) (w : GoString), c1 ≠ c2 →
      SpawnTask.Fingerprint ⟨c1, a⟩ bufWrite (stableEnc f) w ≠
      SpawnTask.Fingerprint ⟨c2, a⟩ bufWrite (stableEnc f) w) ∧
    (∀ (k1 k2 : GoString) (w : GoString), k1 ≠ k2 →
      DeleteTask.Fingerprint ⟨k1⟩ bufWrite (stableEnc f) w ≠
      DeleteTask.Fingerprint ⟨k2⟩ bufWrite (stableEnc f) w) ∧
    (∀ (k : GoString) (a1 a2 : A) (w : GoString),
      (InvokeTask.Fingerprint ⟨k, a1⟩ bufWrite (stableEnc f) w =
       InvokeTask.Fingerprint ⟨k, a2⟩ bufWrite (stableEnc f) w) ↔
      f a1 = f a2) := by
  refine ⟨?_, ?_, ?_, ?_, ?_⟩
  · intro t w
    cases t <;>
      simp [ClientTask.Fingerprint, SpawnTask.Fingerprint,
        InvokeTask.Fingerprint, DeleteTask.Fingerprint, bufWrite, stableEnc,
        fpBytes, List.append_assoc]
  · intro k1 k2 a w hne
    simp [InvokeTask.Fingerprint, bufWrite, stableEnc, List.append_assoc, hne]
  · intro c1 c2 a w hne
    simp [SpawnTask.Fingerprint, bufWrite, stableEnc, List.append_assoc, hne]
  · intro k1 k2 w hne
    simp [DeleteTask.Fingerprint, bufWrite, hne]
  · intro k a1 a2 w
    simp [InvokeTask.Fingerprint, bufWrite, stableEnc, List.append_assoc]

/-- Witness for C8 amended at concrete input: invoke tasks with keys [1]
and [2] and equal arguments serialize differently. -/
theorem Fingerprint_determinism_and_distinctness_witness :
    ([1] : GoString) ≠ [2] ∧
    InvokeTask.Fingerprint ⟨[1], (0 : Nat)⟩ bufWrite (stableEnc fun a => [a]) [] ≠
    InvokeTask.Fingerprint ⟨[2], (0 : Nat)⟩ bufWrite (stableEnc fun a => [a]) [] :=
  ⟨by decide,
    (Fingerprint_determinism_and_distinctness (fun a : Nat => [a])).2.1
      [1] [2] 0 [] (by decide)⟩

/-- C10: the fingerprint encoding carries no variant tag and no field
separators: a spawn whose contract id bytes equal an invoke key, with
equal arguments, fingerprints identically to that invoke; a delete
fingerprints to exactly its key bytes; distinct tasks of different
variants can therefore share a fingerprint. -/
theorem Fingerprint_no_variant_tag (f : A → GoString) (w cid k : GoString)
    (a : A) :
    ClientTask.Fingerprint (.spawn ⟨cid, a⟩) bufWrite (stableEnc f) w =
      ClientTask.Fingerprint (.invoke ⟨cid, a⟩) bufWrite (stableEnc f) w ∧
    ClientTask.Fingerprint (.delete ⟨k⟩) bufWrite (stableEnc f) [] = .ok k ∧
    ClientTask.spawn ⟨cid, a⟩ ≠ ClientTask.invoke ⟨cid, a⟩ := by
  refine ⟨rfl, ?_, fun h => ClientTask.noConfusion h⟩
  simp [ClientTask.Fingerprint, DeleteTask.Fingerprint, bufWrite]

/-- A concrete instance stored at key [2], governed by arc identifier [7]
and owned by contract [3]. -/
def inst0 : Instance Nat := ⟨[2], [7], [3], false, 5⟩

/-- A concrete page holding inst0 at key [2], with reliable storage. -/
def page1 : Page Nat :=
  ⟨fun k => if k = [2] then some inst0 else none, fun _ => false, fun _ => false⟩

/-- Inversion of a successful Consume: the transition produced an
instance, its write did not fail, and the final page is the single-key
update at the instance key. -/
theorem Consume_ok_inv (act : serverTask V A I) (ctx : TxContext I)
    (page p2 : Page V) (h : act.Consume ctx page = (none, p2)) :
    ∃ i, act.dispatch ⟨ctx, page⟩ = .ok i ∧ page.writeFail i.Key = false ∧
      p2 = page.put i.Key i := by
  cases hd : act.dispatch ⟨ctx, page⟩ with
  | error e => simp [serverTask.Consume, hd] at h
  | ok i =>
    by_cases hw : page.writeFail i.Key
    · simp [serverTask.Consume, Page.Write, hd, hw] at h
    · simp only [serverTask.Consume, Page.Write, hd, hw, Bool.false_eq_true,
        if_false, Prod.mk.injEq] at h
      exact ⟨i, rfl, by simp [hw], h.2.symm⟩

/-- A spawn transition that returns an instance gives it the derived key
of the context. -/
theorem consumeSpawn_ok_key (act : serverTask V A I)
    (sctx : SpawnContext V A I) (i : Instance V)
    (h : act.consumeSpawn sctx = .ok i) : i.Key = sctx.ctx.GetID := by
  unfold serverTask.consumeSpawn at h
  cases hr : sctx.ctx.Read sctx.ctx.GetID with
  | ok e => simp [hr] at h
  | error r =>
    simp only [hr] at h
    cases hc : act.contracts sctx.task.ContractID with
    | none => simp [hc] at h
    | some exec =>
      simp only [hc] at h
      cases hs : exec.Spawn sctx with
      | error e => simp [hs] at h
      | ok p =>
        obtain ⟨v, arcid⟩ := p
        simp only [hs] at h
        cases ha : act.hasAccess sctx.ctx arcid
            (arc.Compile sctx.task.ContractID "spawn") with
        | some e => simp [ha] at h
        | none =>
          simp only [ha] at h
          injection h with h2
          subst h2
          rfl

/-- C1: Consume is all-or-nothing with respect to the page: when it
returns an error the observable page state equals the state before the
attempt, and when it succeeds the page state is exactly the single write
of the transition instance under its own key. -/
theorem Consume_all_or_nothing (act : serverTask V A I) (ctx : TxContext I)
    (page : Page V) :
    ((act.Consume ctx page).1.isSome → (act.Consume ctx page).2 = page) ∧
    ((act.Consume ctx page).1 = none →
      ∃ i, act.dispatch ⟨ctx, page⟩ = .ok i ∧
        (act.Consume ctx page).2 = page.put i.Key i) := by
  cases h : act.dispatch ⟨ctx, page⟩ with
  | error e => simp [serverTask.Consume, h]
  | ok i =>
    by_cases hw : page.writeFail i.Key
    · simp [serverTask.Consume, Page.Write, h, hw]
    · exact ⟨by simp [serverTask.Consume, Page.Write, h, hw],
        fun _ => ⟨i, rfl, by simp [serverTask.Consume, Page.Write, h, hw]⟩⟩

/-- Witness for C1 at concrete input: a failing delete leaves the empty
page unchanged; a succeeding spawn ends in the single-key update. -/
theorem Consume_all_or_nothing_witness :
    (serverTask.Consume ⟨.delete ⟨[9]⟩, coinRegistry⟩ allowCtx emptyPage).2 =
      emptyPage ∧
    ∃ i, spawnAct.dispatch ⟨allowCtx, emptyPage⟩ = .ok i ∧
      (spawnAct.Consume allowCtx emptyPage).2 = emptyPage.put i.Key i :=
  ⟨(Consume_all_or_nothing ⟨.delete ⟨[9]⟩, coinRegistry⟩ allowCtx emptyPage).1
      (by rfl),
    (Consume_all_or_nothing spawnAct allowCtx emptyPage).2 (by rfl)⟩

/-- C6: a delete at a key with no instance fails and writes nothing; a
delete at an existing instance marks it deleted and preserves key,
access-control identifier, contract identifier and value; the delete path
consults neither the contract registry nor the access-control resolver,
so every registry and every resolver give the same result. -/
theorem consumeDelete_spec (task : DeleteTask) (t1 t2 : ClientTask A)
    (contracts1 contracts2 : GoString → Option (Contract V A I))
    (ident : I) (txID : GoString)
    (ga1 ga2 : GoString → Except String (AccessControl I)) (page : Page V) :
    (∀ r, page.Read task.Key = .error r →
      serverTask.consumeDelete ⟨t1, contracts1⟩
          ⟨⟨⟨ident, txID, ga1⟩, page⟩, task⟩ =
        .error ("cannot read the instance: " ++ r.msg)) ∧
    (∀ r, page.Read task.Key = .error r →
      serverTask.Consume ⟨.delete task, contracts1⟩ ⟨ident, txID, ga1⟩ page =
        (some ("cannot read the instance: " ++ r.msg), page)) ∧
    (∀ inst, page.Read task.Key = .ok inst →
      serverTask.consumeDelete ⟨t1, contracts1⟩
          ⟨⟨⟨ident, txID, ga1⟩, page⟩, task⟩ =
        .ok ⟨inst.Key, inst.AccessControl, inst.ContractID, true, inst.Value⟩) ∧
    serverTask.consumeDelete ⟨t1, contracts1⟩
        ⟨⟨⟨ident, txID, ga1⟩, page⟩, task⟩ =
      serverTask.consumeDelete ⟨t2, contracts2⟩
        ⟨⟨⟨ident, txID, ga2⟩, page⟩, task⟩ := by
  refine ⟨?_, ?_, ?_, rfl⟩
  · intro r h
    simp [serverTask.consumeDelete, Context.Read, h]
  · intro r h
    simp [serverTask.Consume, serverTask.dispatch, serverTask.consumeDelete,
      Context.Read, h]
  · intro inst h
    simp [serverTask.consumeDelete, Context.Read, h]

/-- Witness for C6 at concrete input: deleting missing key [9] fails with
the read error; deleting key [2] marks inst0 deleted, all other fields
unchanged. -/
theorem consumeDelete_spec_witness :
    serverTask.consumeDelete ⟨.delete ⟨[9]⟩, coinRegistry⟩
        ⟨⟨⟨1, [5], fun _ => .ok allowArc⟩, emptyPage⟩, ⟨[9]⟩⟩ =
      .error ("cannot read the instance: " ++ "not found") ∧
    serverTask.consumeDelete ⟨.delete ⟨[2]⟩, coinRegistry⟩
        ⟨⟨⟨1, [5], fun _ => .ok allowArc⟩, page1⟩, ⟨[2]⟩⟩ =
      .ok ⟨[2], [7], [3], true, 5⟩ :=
  ⟨(consumeDelete_spec ⟨[9]⟩ (.delete ⟨[9]⟩) (.delete ⟨[9]⟩) coinRegistry
      coinRegistry 1 [5] (fun _ => .ok allowArc) (fun _ => .ok allowArc)
      emptyPage).1 .notFound rfl,
    (consumeDelete_spec ⟨[2]⟩ (.delete ⟨[2]⟩) (.delete ⟨[2]⟩) coinRegistry
      coinRegistry 1 [5] (fun _ => .ok allowArc) (fun _ => .ok allowArc)
      page1).2.2.1 inst0 rfl⟩

/-- A concrete page holding at key [5] the instance a successful coin
spawn produces there. -/
def page5 : Page Nat :=
  ⟨fun k => if k = [5] then some ⟨[5], [7], [3], false, 100⟩ else none,
    fun _ => false, fun _ => false⟩

/-- C3: a spawn whose read at the derived key succeeds fails with the
already-exists error and leaves the page unchanged, for every contract
registry; hence after a first successful spawn, a second spawn at the
same derived key fails and the state equals the state after the first
spawn alone. -/
theorem consumeSpawn_collision_refused (task task2 : SpawnTask A)
    (contracts : GoString → Option (Contract V A I)) (ctx : TxContext I)
    (page : Page V) :
    (∀ existing, page.Read ctx.txID = .ok existing →
      serverTask.Consume ⟨.spawn task, contracts⟩ ctx page =
        (some "instance already exists", page)) ∧
    (∀ p2, serverTask.Consume ⟨.spawn task, contracts⟩ ctx page = (none, p2) →
      p2.readFail ctx.txID = false →
      serverTask.Consume ⟨.spawn task2, contracts⟩ ctx p2 =
        (some "instance already exists", p2)) := by
  constructor
  · intro i0 h
    simp [serverTask.Consume, serverTask.dispatch, serverTask.consumeSpawn,
      Context.Read, Context.GetID, h]
  · intro p2 h1 h2
    obtain ⟨i, hd, hw, hp⟩ := Consume_ok_inv _ _ _ _ h1
    have hkey : i.Key = ctx.txID := by
      have hcs : serverTask.consumeSpawn ⟨.spawn task, contracts⟩
          ⟨⟨ctx, page⟩, task⟩ = .ok i := by
        simpa [serverTask.dispatch] using hd
      exact consumeSpawn_ok_key _ _ _ hcs
    subst hp
    simp only [Page.put] at h2
    have hread2 : (page.put i.Key i).Read ctx.txID = .ok i := by
      simp [Page.Read, Page.put, h2, hkey]
    simp [serverTask.Consume, serverTask.dispatch, serverTask.consumeSpawn,
      Context.Read, Context.GetID, hread2]

/-- Witness for C3 at concrete input: a spawn on the page already holding
an instance at the derived key [5] fails and leaves the page unchanged;
after a successful spawn on the empty page, a second spawn fails and
preserves the state left by the first. -/
theorem consumeSpawn_collision_refused_witness :
    serverTask.Consume spawnAct allowCtx page5 =
      (some "instance already exists", page5) ∧
    serverTask.Consume spawnAct allowCtx (spawnAct.Consume allowCtx emptyPage).2 =
      (some "instance already exists", (spawnAct.Consume allowCtx emptyPage).2) :=
  ⟨(consumeSpawn_collision_refused ⟨[3], 0⟩ ⟨[3], 0⟩ coinRegistry allowCtx
      page5).1 ⟨[5], [7], [3], false, 100⟩ rfl,
    (consumeSpawn_collision_refused ⟨[3], 0⟩ ⟨[3], 0⟩ coinRegistry allowCtx
      emptyPage).2 (spawnAct.Consume allowCtx emptyPage).2 rfl rfl⟩

/-- A concrete contract whose spawn and invoke entry points both fail. -/
def failContract : Contract Nat Nat Nat :=
  { Spawn := fun _ => .error "sboom", Invoke := fun _ => .error "iboom" }

/-- A concrete registry holding failContract under identifier [4]. -/
def failRegistry : GoString → Option (Contract Nat Nat Nat) :=
  fun cid => if cid = [4] then some failContract else none

/-- C2: an invoke on an existing instance checks the rule built from the
existing contract identifier and the invoke action against the existing
access-control identifier: a refusing policy makes the invoke fail with
the access-denied error for every contract registry, with the page, and
hence the stored value, unchanged; an allowing policy lets the registered
contract run and the written instance carries its output value. -/
theorem consumeInvoke_access_control (task : InvokeTask A)
    (contracts : GoString → Option (Contract V A I)) (ctx : TxContext I)
    (page : Page V) (inst : Instance V) (acc : AccessControl I)
    (hread : page.Read task.Key = .ok inst)
    (harc : ctx.getArc inst.AccessControl = .ok acc) :
    (∀ e, acc.Match (arc.Compile inst.ContractID "invoke") ctx.identity =
        some e →
      serverTask.Consume ⟨.invoke task, contracts⟩ ctx page =
        (some ("no access: " ++ ("refused: " ++ e)), page)) ∧
    (∀ exec v,
      acc.Match (arc.Compile inst.ContractID "invoke") ctx.identity = none →
      contracts inst.ContractID = some exec →
      exec.Invoke ⟨⟨ctx, page⟩, task⟩ = .ok v →
      page.writeFail inst.Key = false →
      serverTask.Consume ⟨.invoke task, contracts⟩ ctx page =
        (none, page.put inst.Key { inst with Value := v })) := by
  constructor
  · intro e hm
    simp [serverTask.Consume, serverTask.dispatch, serverTask.consumeInvoke,
      serverTask.hasAccess, Context.Read, Context.GetArc, Context.GetIdentity,
      hread, harc, hm]
  · intro exec v hm hc hi hw
    simp [serverTask.Consume, serverTask.dispatch, serverTask.consumeInvoke,
      serverTask.hasAccess, Context.Read, Context.GetArc, Context.GetIdentity,
      Page.Write, hread, harc, hm, hc, hi, hw]

/-- Witness for C2 at concrete input: under the refusing resolver the
invoke of inst0 is denied and the page is unchanged; under the allowing
resolver the coin contract runs and value 70 is written. -/
theorem consumeInvoke_access_control_witness :
    serverTask.Consume ⟨.invoke ⟨[2], 0⟩, coinRegistry⟩ denyCtx page1 =
      (some ("no access: " ++ ("refused: " ++ "denied")), page1) ∧
    serverTask.Consume ⟨.invoke ⟨[2], 0⟩, coinRegistry⟩ allowCtx page1 =
      (none, page1.put [2] { inst0 with Value := 70 }) :=
  ⟨(consumeInvoke_access_control ⟨[2], 0⟩ coinRegistry denyCtx page1 inst0
      denyArc rfl rfl).1 "denied" rfl,
    (consumeInvoke_access_control ⟨[2], 0⟩ coinRegistry allowCtx page1 inst0
      allowArc rfl rfl).2 coinContract 70 rfl rfl rfl rfl⟩

/-- C4: the spawn dispatcher runs the contract first, so a failing
contract aborts the spawn with the contract-execution error whatever the
access policy would say; when the contract succeeds, the rule built from
the task contract identifier and the spawn action is enforced against the
access-control identifier the contract returned, a refusal aborting with
the access-denied error; on success the assembled instance carries the
derived key, the contract-chosen access-control identifier, the task
contract identifier, deleted = false and the contract value. -/
theorem consumeSpawn_execute_then_authorize (task : SpawnTask A)
    (contracts : GoString → Option (Contract V A I)) (ctx : TxContext I)
    (page : Page V) (exec : Contract V A I) (r : ReadErr)
    (hread : page.Read ctx.txID = .error r)
    (hc : contracts task.ContractID = some exec) :
    (∀ e, exec.Spawn ⟨⟨ctx, page⟩, task⟩ = .error e →
      serverTask.consumeSpawn ⟨.spawn task, contracts⟩ ⟨⟨ctx, page⟩, task⟩ =
        .error ("cannot execute spawn: " ++ e)) ∧
    (∀ v arcid acc e, exec.Spawn ⟨⟨ctx, page⟩, task⟩ = .ok (v, arcid) →
      ctx.getArc arcid = .ok acc →
      acc.Match (arc.Compile task.ContractID "spawn") ctx.identity = some e →
      serverTask.consumeSpawn ⟨.spawn task, contracts⟩ ⟨⟨ctx, page⟩, task⟩ =
        .error ("no access: " ++ ("refused: " ++ e))) ∧
    (∀ v arcid acc, exec.Spawn ⟨⟨ctx, page⟩, task⟩ = .ok (v, arcid) →
      ctx.getArc arcid = .ok acc →
      acc.Match (arc.Compile task.ContractID "spawn") ctx.identity = none →
      serverTask.consumeSpawn ⟨.spawn task, contracts⟩ ⟨⟨ctx, page⟩, task⟩ =
        .ok ⟨ctx.txID, arcid, task.ContractID, false, v⟩) := by
  refine ⟨?_, ?_, ?_⟩
  · intro e hs
    simp [serverTask.consumeSpawn, Context.Read, Context.GetID, hread, hc, hs]
  · intro v arcid acc e hs harc hm
    simp [serverTask.consumeSpawn, serverTask.hasAccess, Context.Read,
      Context.GetID, Context.GetArc, Context.GetIdentity, hread, hc, hs,
      harc, hm]
  · intro v arcid acc hs harc hm
    simp [serverTask.consumeSpawn, serverTask.hasAccess, Context.Read,
      Context.GetID, Context.GetArc, Context.GetIdentity, hread, hc, hs,
      harc, hm]

/-- Witness for C4 at concrete input: the failing contract aborts the
spawn with its own error even under the refusing resolver; the coin
contract under the refusing resolver is executed and then denied; under
the allowing resolver the spawned instance has the expected fields. -/
theorem consumeSpawn_execute_then_authorize_witness :
    serverTask.consumeSpawn ⟨.spawn ⟨[4], 0⟩, failRegistry⟩
        ⟨⟨denyCtx, emptyPage⟩, ⟨[4], 0⟩⟩ =
      .error ("cannot execute spawn: " ++ "sboom") ∧
    serverTask.consumeSpawn ⟨.spawn ⟨[3], 0⟩, coinRegistry⟩
        ⟨⟨denyCtx, emptyPage⟩, ⟨[3], 0⟩⟩ =
      .error ("no access: " ++ ("refused: " ++ "denied")) ∧
    serverTask.consumeSpawn ⟨.spawn ⟨[3], 0⟩, coinRegistry⟩
        ⟨⟨allowCtx, emptyPage⟩, ⟨[3], 0⟩⟩ =
      .ok ⟨[5], [7], [3], false, 100⟩ :=
  ⟨(consumeSpawn_execute_then_authorize ⟨[4], 0⟩ failRegistry denyCtx
      emptyPage failContract .notFound rfl rfl).1 "sboom" rfl,
    (consumeSpawn_execute_then_authorize ⟨[3], 0⟩ coinRegistry denyCtx
      emptyPage coinContract .notFound rfl rfl).2.1 100 [7] denyArc "denied"
      rfl rfl rfl,
    (consumeSpawn_execute_then_authorize ⟨[3], 0⟩ coinRegistry allowCtx
      emptyPage coinContract .notFound rfl rfl).2.2 100 [7] allowArc
      rfl rfl rfl⟩

/-- C5: a successful invoke replaces only the value: the returned
instance keeps the key, contract identifier, access-control identifier
and deleted flag of the instance that was read, and its value is the
output of the registered contract. -/
theorem consumeInvoke_frame (act : serverTask V A I)
    (ictx : InvokeContext V A I) (inst inst2 : Instance V)
    (hread : ictx.ctx.Read ictx.task.Key = .ok inst)
    (hok : act.consumeInvoke ictx = .ok inst2) :
    inst2.Key = inst.Key ∧ inst2.ContractID = inst.ContractID ∧
    inst2.AccessControl = inst.AccessControl ∧ inst2.Deleted = inst.Deleted ∧
    ∃ exec, act.contracts inst.ContractID = some exec ∧
      exec.Invoke ictx = .ok inst2.Value := by
  unfold serverTask.consumeInvoke at hok
  simp only [hread] at hok
  cases ha : act.hasAccess ictx.ctx inst.AccessControl
      (arc.Compile inst.ContractID "invoke") with
  | some e => simp [ha] at hok
  | none =>
    simp only [ha] at hok
    cases hc : act.contracts inst.ContractID with
    | none => simp [hc] at hok
    | some exec =>
      simp only [hc] at hok
      cases hi : exec.Invoke ictx with
      | error e => simp [hi] at hok
      | ok v =>
        simp only [hi] at hok
        injection hok with h2
        subst h2
        exact ⟨rfl, rfl, rfl, rfl, exec, rfl, hi⟩

/-- Witness for C5 at concrete input: the successful invoke of inst0
keeps key, contract identifier, access-control identifier and deleted
flag and takes its value from the coin contract. -/
theorem consumeInvoke_frame_witness :
    (⟨[2], [7], [3], false, 70⟩ : Instance Nat).Key = inst0.Key ∧
    (⟨[2], [7], [3], false, 70⟩ : Instance Nat).ContractID = inst0.ContractID ∧
    (⟨[2], [7], [3], false, 70⟩ : Instance Nat).AccessControl =
      inst0.AccessControl ∧
    (⟨[2], [7], [3], false, 70⟩ : Instance Nat).Deleted = inst0.Deleted ∧
    ∃ exec, coinRegistry inst0.ContractID = some exec ∧
      exec.Invoke ⟨⟨allowCtx, page1⟩, ⟨[2], 0⟩⟩ =
        .ok (⟨[2], [7], [3], false, 70⟩ : Instance Nat).Value :=
  consumeInvoke_frame ⟨.invoke ⟨[2], 0⟩, coinRegistry⟩
    ⟨⟨allowCtx, page1⟩, ⟨[2], 0⟩⟩ inst0 ⟨[2], [7], [3], false, 70⟩ rfl rfl

/-- C9 counterexample: on a page whose read fails with a storage failure
at the derived key, the spawn does not abort with that failure: the
contract is executed and the new instance is written. -/
theorem consumeSpawn_storage_failure_counterexample :
    badReadPage.Read [5] = .error .storageFailure ∧
    (spawnAct.Consume allowCtx badReadPage).1 = none ∧
    (spawnAct.Consume allowCtx badReadPage).2.store [5] =
      some ⟨[5], [7], [3], false, 100⟩ :=
  ⟨rfl, rfl, rfl⟩

/-- C9 amended: the spawn transition distinguishes only read success
from read failure: a read that fails with a storage failure does not
abort the spawn, which proceeds to contract execution exactly as for an
absent instance and, with a registered contract and an allowing policy,
succeeds. -/
theorem consumeSpawn_storage_failure_proceeds (task : SpawnTask A)
    (contracts : GoString → Option (Contract V A I)) (ctx : TxContext I)
    (page : Page V) (exec : Contract V A I) (v : V) (arcid : GoString)
    (acc : AccessControl I)
    (hread : page.Read ctx.txID = .error .storageFailure)
    (hc : contracts task.ContractID = some exec)
    (hs : exec.Spawn ⟨⟨ctx, page⟩, task⟩ = .ok (v, arcid))
    (harc : ctx.getArc arcid = .ok acc)
    (hm : acc.Match (arc.Compile task.ContractID "spawn") ctx.identity =
      none) :
    serverTask.consumeSpawn ⟨.spawn task, contracts⟩ ⟨⟨ctx, page⟩, task⟩ =
      .ok ⟨ctx.txID, arcid, task.ContractID, false, v⟩ := by
  simp [serverTask.consumeSpawn, serverTask.hasAccess, Context.Read,
    Context.GetID, Context.GetArc, Context.GetIdentity, hread, hc, hs,
    harc, hm]

/-- Witness for C9 amended at concrete input: the coin spawn on the page
with failing reads succeeds. -/
theorem consumeSpawn_storage_failure_proceeds_witness :
    serverTask.consumeSpawn ⟨.spawn ⟨[3], 0⟩, coinRegistry⟩
        ⟨⟨allowCtx, badReadPage⟩, ⟨[3], 0⟩⟩ =
      .ok ⟨[5], [7], [3], false, 100⟩ :=
  consumeSpawn_storage_failure_proceeds ⟨[3], 0⟩ coinRegistry allowCtx
    badReadPage coinContract 100 [7] allowArc rfl rfl rfl rfl rfl

end Dela
